/-
Verification of the gesture classification & action dispatch engine of
the hand-gesture-smart-home repository.

Shallow embedding conventions:
  * Python floats are modelled as rationals (ℚ); the program only ever
    compares, subtracts and adds them, so ℚ is a faithful carrier.
  * Python dicts keyed by strings are modelled as association lists
    (`List (String × α)`) with `List.lookup`; an assignment `d[k] = v`
    is modelled by consing `(k, v)` in front (lookup finds the newest
    binding, exactly like the dict after the assignment).
  * `time.time()` reads are modelled by an explicit `now : ℚ` argument.
  * Python truthiness of `Optional[str]` (`if not gesture.action`):
    `None` and the empty string are falsy, everything else truthy.
  * Network I/O is modelled by response oracles passed as arguments, and
    each embedded `trigger` returns, besides its boolean result, a trace
    of the requests it issued, so that claims about "no request issued"
    are statable.
-/
import Mathlib

namespace HandGesture

/-! ## Data model (src/gesture/detector.py, src/config.py) -/

/-- One MediaPipe NormalizedLandmark: normalized x, y and relative depth z. -/
structure Landmark where
  x : ℚ
  y : ℚ
  z : ℚ
deriving Repr, DecidableEq

/-- `HandLandmarks` dataclass: 21 landmarks, handedness label, confidence. -/
structure HandLandmarks where
  landmarks : Fin 21 → Landmark
  handedness : String
  confidence : ℚ

/-- `DetectionResult` dataclass: the hands detected in one frame. -/
structure DetectionResult where
  hands : List HandLandmarks

/-- `GestureConfig` dataclass from src/config.py. -/
structure GestureConfig where
  name : String
  action : String
  description : String
  cooldown : ℚ
deriving Repr, DecidableEq

/-- `RecognizedGesture` dataclass from src/gesture/recognizer.py. -/
structure RecognizedGesture where
  name : String
  display_name : String
  action : Option String
  description : Option String
  confidence : ℚ
  handedness : String
  fingers_up : List Bool
  landmarks : Fin 21 → Landmark

/-- Python truthiness of an `Optional[str]`: `None` and `""` are falsy. -/
def optStrTruthy : Option String → Bool
  | none => false
  | some s => s ≠ ""

/-! ## Keypoint geometry helpers (`GestureRecognizer.get_fingers_up`,
`GestureRecognizer._tip_distance`, recognizer.py 45-72). -/

/-- `get_fingers_up(landmarks, handedness)`: `[thumb, index, middle, ring,
pinky]`, `true` = extended.  Thumb compares x of tip (4) against the IP
joint (3), direction depending on handedness; the other four compare tip y
against PIP y for the pairs `(8,6), (12,10), (16,14), (20,18)`. -/
def get_fingers_up (lm : Fin 21 → Landmark) (handedness : String) : List Bool :=
  let thumb : Bool :=
    if handedness = "Right" then decide ((lm 4).x < (lm 3).x)
    else decide ((lm 4).x > (lm 3).x)
  thumb ::
    [((8 : Fin 21), (6 : Fin 21)), (12, 10), (16, 14), (20, 18)].map
      (fun p => decide ((lm p.1).y < (lm p.2).y))

/-- Square of `_tip_distance(landmarks, a, b)` (the normalised Euclidean
distance).  The source compares the distance only against non-negative
thresholds `t`, and `dist < t ↔ dist² < t²` for `dist, t ≥ 0`, so the
embedding carries the square and compares against squared thresholds —
this keeps every comparison exact over ℚ. -/
def tip_distance_sq (lm : Fin 21 → Landmark) (a b : Fin 21) : ℚ :=
  ((lm a).x - (lm b).x) ^ 2 + ((lm a).y - (lm b).y) ^ 2

/-! ## Gesture classification (`GestureRecognizer.classify`, recognizer.py
78-131).  The body after computing `f = get_fingers_up(...)`,
`thumb_index_dist = _tip_distance(landmarks, 4, 8)` and
`landmarks[4].y < landmarks[0].y` is the pure decision chain
`classifyCore`; `classify` computes those inputs exactly as the source
does and runs the chain. -/

/-- The decision chain of `classify` over the finger vector `f`, the two
distance comparisons (`thumb_index_dist < 0.055`, `< 0.065`) and the
thumb-above-wrist comparison (`landmarks[4].y < landmarks[0].y`). -/
def classifyCore (f : List Bool) (distLt55 distLt65 tipAboveWrist : Bool) :
    String × ℚ :=
  let thumb := f.getD 0 false
  let index := f.getD 1 false
  let middle := f.getD 2 false
  let ring := f.getD 3 false
  let pinky := f.getD 4 false
  let count := f.count true
  if count = 5 then ("open_palm", 0.95)
  else if count = 0 then ("fist", 0.95)
  else if thumb && !index && !middle && !ring && !pinky then
    if tipAboveWrist then ("thumbs_up", 0.90) else ("thumbs_down", 0.85)
  else if !thumb && index && !middle && !ring && !pinky then ("point", 0.90)
  else if !thumb && index && middle && !ring && !pinky then ("peace", 0.90)
  else if !thumb && index && !middle && !ring && pinky then ("rock", 0.90)
  else if !thumb && index && middle && ring && !pinky then ("three_fingers", 0.88)
  else if !thumb && index && middle && ring && pinky then ("four_fingers", 0.88)
  else if middle && ring && pinky && distLt55 then ("ok", 0.85)
  else if thumb && index && !middle && !ring && !pinky then
    if distLt65 then ("heart", 0.90) else ("l_shape", 0.80)
  else ("unknown", 0.50)

/-- `classify(landmarks, handedness) -> (gesture_name, confidence)`. -/
def classify (lm : Fin 21 → Landmark) (handedness : String) : String × ℚ :=
  classifyCore (get_fingers_up lm handedness)
    (decide (tip_distance_sq lm 4 8 < (0.055 : ℚ) ^ 2))
    (decide (tip_distance_sq lm 4 8 < (0.065 : ℚ) ^ 2))
    (decide ((lm 4).y < (lm 0).y))

/-! ## The spec's ordered decision list (§4.2).  Written from the spec's
table, not from the code: each rule names its full condition over the
finger-state vector, first match wins. -/

/-- The decision list of spec §4.2 over the finger vector and the two
distance comparisons, rule by rule in declaration order. -/
def specDecisionList (f : List Bool) (distLt55 distLt65 tipAboveWrist : Bool) :
    String × ℚ :=
  let thumb := f.getD 0 false
  let index := f.getD 1 false
  let middle := f.getD 2 false
  let ring := f.getD 3 false
  let pinky := f.getD 4 false
  if thumb && index && middle && ring && pinky then ("open_palm", 0.95)
  else if !thumb && !index && !middle && !ring && !pinky then ("fist", 0.95)
  else if thumb && !index && !middle && !ring && !pinky && tipAboveWrist then
    ("thumbs_up", 0.90)
  else if thumb && !index && !middle && !ring && !pinky then ("thumbs_down", 0.85)
  else if !thumb && index && !middle && !ring && !pinky then ("point", 0.90)
  else if !thumb && index && middle && !ring && !pinky then ("peace", 0.90)
  else if !thumb && index && !middle && !ring && pinky then ("rock", 0.90)
  else if !thumb && index && middle && ring && !pinky then ("three_fingers", 0.88)
  else if !thumb && index && middle && ring && pinky then ("four_fingers", 0.88)
  else if middle && ring && pinky && distLt55 then ("ok", 0.85)
  else if thumb && index && !middle && !ring && !pinky && distLt65 then
    ("heart", 0.90)
  else if thumb && index && !middle && !ring && !pinky then ("l_shape", 0.80)
  else ("unknown", 0.50)

/-- The spec's classifier: the decision list evaluated on the finger-state
vector and the two thresholds (squared-distance form, see
`tip_distance_sq`); the heart/l_shape boundary at exactly 0.065 falls on
the l_shape side because the heart rule demands strict `<`. -/
def classifySpec (lm : Fin 21 → Landmark) (handedness : String) : String × ℚ :=
  specDecisionList (get_fingers_up lm handedness)
    (decide (tip_distance_sq lm 4 8 < (0.055 : ℚ) ^ 2))
    (decide (tip_distance_sq lm 4 8 < (0.065 : ℚ) ^ 2))
    (decide ((lm 4).y < (lm 0).y))

/-! ## Cooldown / debounce tracker
(`GestureRecognizer.can_trigger` / `mark_triggered`, recognizer.py 137-142).
The `_last_action_time` dict is the association list; `time.time()` is the
explicit `now` argument. -/

/-- `last = self._last_action_time.get(gesture_name, 0.0)`. -/
def lastTime (m : List (String × ℚ)) (key : String) : ℚ :=
  (m.lookup key).getD 0

/-- `return (time.time() - last) >= cooldown`. -/
def can_trigger (m : List (String × ℚ)) (key : String) (cooldown now : ℚ) : Bool :=
  decide (now - lastTime m key ≥ cooldown)

/-- `self._last_action_time[gesture_name] = time.time()`. -/
def mark_triggered (m : List (String × ℚ)) (key : String) (now : ℚ) :
    List (String × ℚ) :=
  (key, now) :: m

/-! ## Action dispatcher (`HomeController.execute`, controller.py 42-70).

The backend call `self._backend.trigger(gesture.action, gesture)` either
returns a boolean or raises; `BackendOutcome` enumerates the behaviours
quantified over in the claims. -/

/-- Possible behaviours of one `self._backend.trigger(...)` call. -/
inductive BackendOutcome where
  | ok (b : Bool)
  | raises
deriving Repr, DecidableEq

/-- Result of one `execute` call: the returned boolean, the
`_last_action_time` dict afterwards, and whether the backend's `trigger`
was invoked. -/
structure ExecResult where
  result : Bool
  lastActionTime : List (String × ℚ)
  backendInvoked : Bool
deriving Repr, DecidableEq

/-- `HomeController.execute(gesture, cooldown)`, with `now` standing for
`time.time()`, `dryRun` for `self.dry_run`, `m` for the controller's
`_last_action_time` dict, and `backend` for the behaviour of the
`self._backend.trigger` call. -/
def execute (m : List (String × ℚ)) (dryRun : Bool) (gesture : RecognizedGesture)
    (cooldown now : ℚ) (backend : BackendOutcome) : ExecResult :=
  if ¬ optStrTruthy gesture.action then
    { result := false, lastActionTime := m, backendInvoked := false }
  else if now - (m.lookup gesture.name).getD 0 < cooldown then
    { result := false, lastActionTime := m, backendInvoked := false }
  else
    let m' := (gesture.name, now) :: m
    if dryRun then
      { result := true, lastActionTime := m', backendInvoked := false }
    else
      match backend with
      | .ok b => { result := b, lastActionTime := m', backendInvoked := true }
      | .raises => { result := false, lastActionTime := m', backendInvoked := true }

/-! ## Recognition session (`GestureRecognizer.recognize`, recognizer.py
144-165).  The config dict is an association list; the fallback display
name is `name.replace("_", " ").title()`. -/

/-- Python `s.replace("_", " ")` for a one-character pattern. -/
def replaceUnderscore (s : String) : String :=
  ⟨s.data.map (fun c => if c = '_' then ' ' else c)⟩

/-- Helper for `pyTitle`: the boolean records whether the previous
character was alphabetic. -/
def pyTitleAux : Bool → List Char → List Char
  | _, [] => []
  | prevAlpha, c :: cs =>
    (if c.isAlpha then (if prevAlpha then c.toLower else c.toUpper) else c) ::
      pyTitleAux c.isAlpha cs

/-- Python `s.title()` (restricted to ASCII letters, which is all the
gesture names contain): uppercase a letter that starts a word, lowercase
the rest. -/
def pyTitle (s : String) : String := ⟨pyTitleAux false s.data⟩

/-- `GestureRecognizer.recognize(detection)`: one `RecognizedGesture` per
detected hand, built from `classify` and the config lookup. -/
def recognize (config : List (String × GestureConfig))
    (detection : DetectionResult) : List RecognizedGesture :=
  detection.hands.map fun hand =>
    let nameConf := classify hand.landmarks hand.handedness
    let cfg := config.lookup nameConf.1
    { name := nameConf.1
      display_name :=
        match cfg with
        | some c => c.name
        | none => pyTitle (replaceUnderscore nameConf.1)
      action := cfg.map (fun c => c.action)
      description := cfg.map (fun c => c.description)
      confidence := nameConf.2
      handedness := hand.handedness
      fingers_up := get_fingers_up hand.landmarks hand.handedness
      landmarks := hand.landmarks }

/-! ## Webhook backend (`IFTTTBackend.trigger`, ifttt.py 36-61). -/

/-- `ACTION_EVENTS` from ifttt.py: action name → IFTTT event name. -/
def ACTION_EVENTS : List (String × String) :=
  [("ac_toggle", "ac_toggle"), ("ac_on", "ac_on"), ("ac_off", "ac_off"),
   ("ac_increase_temp", "ac_temp_up"), ("ac_decrease_temp", "ac_temp_down"),
   ("lights_on", "lights_on"), ("lights_off", "lights_off"),
   ("lights_toggle", "lights_toggle"), ("volume_up", "volume_up"),
   ("volume_down", "volume_down"), ("custom_scene", "custom_scene")]

/-- Outcome of one HTTP `requests.post`: a response with a status code, or
a raised `RequestException`. -/
inductive HttpResult where
  | resp (status : Nat)
  | exn
deriving Repr, DecidableEq

/-- Result of a backend `trigger` call: the boolean result plus the list
of event names it POSTed (the request trace). -/
structure WebhookResult where
  result : Bool
  posts : List String
deriving Repr, DecidableEq

/-- `IFTTTBackend.trigger(action, gesture)`: `apiKey` is
`IFTTT_WEBHOOK_KEY`, `http` the outcome of the (single, at most) POST.
The event is `ACTION_EVENTS.get(action, action)` — an unmapped action id
is used verbatim as the event name. -/
def ifttt_trigger (apiKey : String) (action : String) (http : HttpResult) :
    WebhookResult :=
  if apiKey = "" then { result := false, posts := [] }
  else
    let event := (ACTION_EVENTS.lookup action).getD action
    match http with
    | .resp s => { result := s = 200, posts := [event] }
    | .exn => { result := false, posts := [event] }

/-! ## Home-automation REST backend (`HomeAssistantBackend.trigger`,
home_assistant.py 36-64). -/

/-- `ACTION_MAP` from home_assistant.py: action → (domain, service,
env var naming the entity id). -/
def ACTION_MAP : List (String × (String × String × String)) :=
  [("ac_toggle", ("climate", "toggle", "HA_CLIMATE_ENTITY")),
   ("ac_on", ("climate", "turn_on", "HA_CLIMATE_ENTITY")),
   ("ac_off", ("climate", "turn_off", "HA_CLIMATE_ENTITY")),
   ("ac_increase_temp", ("climate", "turn_on", "HA_CLIMATE_ENTITY")),
   ("ac_decrease_temp", ("climate", "turn_on", "HA_CLIMATE_ENTITY")),
   ("lights_on", ("light", "turn_on", "HA_LIGHT_ENTITY")),
   ("lights_off", ("light", "turn_off", "HA_LIGHT_ENTITY")),
   ("lights_toggle", ("light", "toggle", "HA_LIGHT_ENTITY")),
   ("volume_up", ("media_player", "volume_up", "HA_MEDIA_PLAYER_ENTITY")),
   ("volume_down", ("media_player", "volume_down", "HA_MEDIA_PLAYER_ENTITY")),
   ("custom_scene", ("scene", "turn_on", "HA_SCENE_ENTITY"))]

/-- `HomeAssistantBackend.trigger(action, gesture)`: `token` is
`HA_LONG_LIVED_TOKEN`, `env` models `os.getenv(·, "")`, `http` the
outcome of the (single, at most) POST; `posts` records the service URLs
POSTed. -/
def ha_trigger (token : String) (env : String → String) (action : String)
    (http : HttpResult) : WebhookResult :=
  if token = "" then { result := false, posts := [] }
  else
    match ACTION_MAP.lookup action with
    | none => { result := false, posts := [] }
    | some (domain, service, entityEnv) =>
      if env entityEnv = "" then { result := false, posts := [] }
      else
        match http with
        | .resp s => { result := s = 200 ∨ s = 201, posts := [domain ++ "/" ++ service] }
        | .exn => { result := false, posts := [domain ++ "/" ++ service] }

/-! ## Cloud-thermostat backend (`GoogleSDMBackend`, google_sdm.py). -/

/-- A value in an SDM command's `params` dict. -/
inductive SDMParam where
  | str (v : String)
  | num (v : ℚ)
deriving Repr, DecidableEq

/-- One SDM command body (`command` plus `params`). -/
structure SDMCommand where
  command : String
  params : List (String × SDMParam)
deriving Repr, DecidableEq

/-- `GoogleSDMBackend._action_to_command`: the Python function returns
`{}` for an unmapped action and the caller tests `if not command`, so the
empty dict is modelled as `none`. -/
def action_to_command (action : String) : Option SDMCommand :=
  ([("ac_on", ⟨"sdm.devices.commands.ThermostatMode.SetMode",
       [("mode", .str "COOL")]⟩),
    ("ac_off", ⟨"sdm.devices.commands.ThermostatMode.SetMode",
       [("mode", .str "OFF")]⟩),
    ("ac_toggle", ⟨"sdm.devices.commands.ThermostatMode.SetMode",
       [("mode", .str "COOL")]⟩),
    ("ac_increase_temp", ⟨"sdm.devices.commands.ThermostatTemperatureSetpoint.SetCool",
       [("coolCelsius", .num 24)]⟩),
    ("ac_decrease_temp", ⟨"sdm.devices.commands.ThermostatTemperatureSetpoint.SetCool",
       [("coolCelsius", .num 22)]⟩)] :
      List (String × SDMCommand)).lookup action

/-- Outcome of one POST to the OAuth token endpoint: a response carrying a
status code and (when the status is 200) the new access token, or a raised
`RequestException`. -/
inductive TokenHttpResult where
  | resp (status : Nat) (token : String)
  | exn
deriving Repr, DecidableEq

/-- `GoogleSDMBackend._refresh_access_token`: returns the boolean result
and the access-token field afterwards (`tok` is `self._access_token`
before the call; it is overwritten only on a 200 response). -/
def refresh_access_token (tok : String) (r : TokenHttpResult) : Bool × String :=
  match r with
  | .resp 200 newTok => (true, newTok)
  | .resp _ _ => (false, tok)
  | .exn => (false, tok)

/-- Observable effects of one `GoogleSDMBackend.trigger` call: the boolean
result, `self._access_token` afterwards, the number of POSTs to the token
endpoint, and the bearer tokens of the command POSTs, in order. -/
structure SDMResult where
  result : Bool
  accessToken : String
  refreshCalls : Nat
  commandPosts : List String
deriving Repr, DecidableEq

/-- Lines 60-61 of google_sdm.py: `if not self._access_token and not
self._refresh_access_token(): return False`.  Returns the access token
and the number of token-endpoint POSTs made so far, or `none` when the
call fails here. -/
def sdm_ensure_token (tok0 : String) (refreshO : Nat → TokenHttpResult) :
    Option (String × Nat) :=
  if tok0 = "" then
    match refresh_access_token tok0 (refreshO 0) with
    | (true, t) => some (t, 1)
    | (false, _) => none
  else some (tok0, 0)

/-- Lines 63-90 of google_sdm.py: the mapping check and the command POST
with its single 401 refresh-and-retry, starting from access token `tok`
after `r` token-endpoint POSTs. -/
def sdm_command_phase (action tok : String) (r : Nat)
    (refreshO : Nat → TokenHttpResult) (cmdO : Nat → HttpResult) : SDMResult :=
  match action_to_command action with
  | none => { result := false, accessToken := tok, refreshCalls := r,
              commandPosts := [] }
  | some _ =>
    match cmdO 0 with
    | .exn => { result := false, accessToken := tok, refreshCalls := r,
                commandPosts := [tok] }
    | .resp s =>
      if s = 200 then
        { result := true, accessToken := tok, refreshCalls := r,
          commandPosts := [tok] }
      else if s = 401 then
        -- `if resp.status_code == 401 and self._refresh_access_token():`
        match refresh_access_token tok (refreshO r) with
        | (true, tok') =>
          match cmdO 1 with
          | .resp s' => { result := s' = 200, accessToken := tok',
                          refreshCalls := r + 1, commandPosts := [tok, tok'] }
          | .exn => { result := false, accessToken := tok',
                      refreshCalls := r + 1, commandPosts := [tok, tok'] }
        | (false, _) =>
          { result := false, accessToken := tok, refreshCalls := r + 1,
            commandPosts := [tok] }
      else
        { result := false, accessToken := tok, refreshCalls := r,
          commandPosts := [tok] }

/-- `GoogleSDMBackend.trigger(action, gesture)`.  `tok0` is the cached
`self._access_token` (`""` = none, per Python truthiness); `refreshO n`
is the outcome of the (n+1)-th POST to the token endpoint within this
call, `cmdO n` of the (n+1)-th command POST.  The trace records every
request issued. -/
def sdm_trigger (tok0 : String) (action : String)
    (refreshO : Nat → TokenHttpResult) (cmdO : Nat → HttpResult) : SDMResult :=
  match sdm_ensure_token tok0 refreshO with
  | none => { result := false, accessToken := tok0, refreshCalls := 1,
              commandPosts := [] }
  | some (tok, r) => sdm_command_phase action tok r refreshO cmdO

/-- `resp.status_code == 200` viewed as the success of one command POST. -/
def cmdSuccess : HttpResult → Bool
  | .resp s => s = 200
  | .exn => false

/-! ## Sample inputs for witnesses. -/

/-- A concrete hand: every landmark at the origin. -/
def sampleLandmarks : Fin 21 → Landmark := fun _ => ⟨0, 0, 0⟩

/-- A concrete detected hand. -/
def sampleHand : HandLandmarks :=
  { landmarks := sampleLandmarks, handedness := "Right", confidence := 1 }

/-- A concrete recognised gesture carrying an action id. -/
def sampleGesture : RecognizedGesture :=
  { name := "thumbs_up", display_name := "Thumbs Up", action := some "lights_on",
    description := some "turn on the lights", confidence := 0.9,
    handedness := "Right", fingers_up := [true, false, false, false, false],
    landmarks := sampleLandmarks }

/-! # Theorems -/

/-- The decision chain of the code agrees with the spec's ordered decision
list on every finger vector and every pair of threshold comparisons. -/
theorem classifyCore_eq_specDecisionList (t i m r p dA dB up : Bool) :
    classifyCore [t, i, m, r, p] dA dB up = specDecisionList [t, i, m, r, p] dA dB up := by
  cases t <;> cases i <;> cases m <;> cases r <;> cases p <;>
    cases dA <;> cases dB <;> cases up <;> rfl

/-- C1: for every 21-keypoint input and every handedness, `classify`
returns exactly the (gesture, confidence) pair given by the ordered
decision list of spec §4.2 (first matching rule wins; the heart/l_shape
boundary at exactly 0.065 falls on the l_shape side). -/
theorem classify_matches_spec_decision_list (lm : Fin 21 → Landmark)
    (handedness : String) : classify lm handedness = classifySpec lm handedness := by
  have hf : get_fingers_up lm handedness =
      [(if handedness = "Right" then decide ((lm 4).x < (lm 3).x)
          else decide ((lm 4).x > (lm 3).x)),
       decide ((lm 8).y < (lm 6).y), decide ((lm 12).y < (lm 10).y),
       decide ((lm 16).y < (lm 14).y), decide ((lm 20).y < (lm 18).y)] := rfl
  unfold classify classifySpec
  rw [hf]
  exact classifyCore_eq_specDecisionList _ _ _ _ _ _ _ _

/-- C9: `get_fingers_up` is the 5-vector [thumb, index, middle, ring,
pinky] with the thumb extended iff tip.x < IP.x for "Right" handedness and
tip.x > IP.x otherwise, and each other finger extended iff its tip's y is
strictly less than its PIP's y. -/
theorem get_fingers_up_characterisation (lm : Fin 21 → Landmark)
    (handedness : String) :
    (get_fingers_up lm handedness).length = 5 ∧
    ((get_fingers_up lm handedness).getD 0 false = true ↔
      (if handedness = "Right" then (lm 4).x < (lm 3).x else (lm 4).x > (lm 3).x)) ∧
    ((get_fingers_up lm handedness).getD 1 false = true ↔ (lm 8).y < (lm 6).y) ∧
    ((get_fingers_up lm handedness).getD 2 false = true ↔ (lm 12).y < (lm 10).y) ∧
    ((get_fingers_up lm handedness).getD 3 false = true ↔ (lm 16).y < (lm 14).y) ∧
    ((get_fingers_up lm handedness).getD 4 false = true ↔ (lm 20).y < (lm 18).y) := by
  by_cases hR : handedness = "Right" <;> simp [get_fingers_up, hR]

/-- C2: the tracker allows a fire iff `now - last ≥ cooldown` where an
unmarked key has last-fire time 0 (so an unmarked key is eligible exactly
when `cooldown ≤ now`, in particular always on first sight at wall-clock
times); after `mark_triggered key t0`, `can_trigger` is false at every
`t` with `t - t0 < cd` and true at `t = t0 + cd` exactly. -/
theorem can_trigger_spec (m : List (String × ℚ)) (key : String) (cd now : ℚ) :
    (can_trigger m key cd now = true ↔ now - (m.lookup key).getD 0 ≥ cd) ∧
    (m.lookup key = none → can_trigger m key cd now = decide (cd ≤ now)) ∧
    (∀ t0 t : ℚ, t - t0 < cd →
      can_trigger (mark_triggered m key t0) key cd t = false) ∧
    (∀ t0 : ℚ, can_trigger (mark_triggered m key t0) key cd (t0 + cd) = true) := by
  refine ⟨by simp [can_trigger, lastTime], ?_, ?_, ?_⟩
  · intro h
    simp [can_trigger, lastTime, h, ge_iff_le]
  · intro t0 t hlt
    simp only [can_trigger, lastTime, mark_triggered, List.lookup, beq_self_eq_true,
      Option.getD_some]
    simpa using not_le.mpr hlt
  · intro t0
    simp [can_trigger, lastTime, mark_triggered, List.lookup]

/-- Witness for C2 at concrete inputs. -/
theorem can_trigger_spec_witness :
    can_trigger [] "fist" 2 5 = decide ((2 : ℚ) ≤ 5) ∧
    can_trigger (mark_triggered [] "fist" 10) "fist" 2 11 = false ∧
    can_trigger (mark_triggered [] "fist" 10) "fist" 2 (10 + 2) = true := by
  obtain ⟨-, h2, h3, h4⟩ := can_trigger_spec ([] : List (String × ℚ)) "fist" 2 5
  exact ⟨h2 rfl, h3 10 11 (by norm_num), h4 10⟩

/-- C3: whenever the gesture carries an action id and the cooldown has
elapsed, `execute` records `now` as the last-fire time of `gesture.name`
in every outcome — dry-run, backend success, backend false, and backend
exception alike. -/
theorem execute_always_marks_cooldown (m : List (String × ℚ)) (dryRun : Bool)
    (gesture : RecognizedGesture) (cd now : ℚ) (backend : BackendOutcome)
    (hact : optStrTruthy gesture.action = true)
    (hcd : ¬ now - (m.lookup gesture.name).getD 0 < cd) :
    ((execute m dryRun gesture cd now backend).lastActionTime).lookup
      gesture.name = some now := by
  cases dryRun <;> rcases backend with b | _ <;>
    simp [execute, hact, hcd, List.lookup]

/-- Witness for C3: the cooldown stamp advances in all four outcomes. -/
theorem execute_always_marks_cooldown_witness :
    ((execute [] false sampleGesture 2 5 (.ok true)).lastActionTime).lookup
        sampleGesture.name = some 5 ∧
    ((execute [] false sampleGesture 2 5 (.ok false)).lastActionTime).lookup
        sampleGesture.name = some 5 ∧
    ((execute [] false sampleGesture 2 5 .raises).lastActionTime).lookup
        sampleGesture.name = some 5 ∧
    ((execute [] true sampleGesture 2 5 (.ok true)).lastActionTime).lookup
        sampleGesture.name = some 5 :=
  ⟨execute_always_marks_cooldown [] false sampleGesture 2 5 (.ok true)
      (by decide) (by norm_num),
   execute_always_marks_cooldown [] false sampleGesture 2 5 (.ok false)
      (by decide) (by norm_num),
   execute_always_marks_cooldown [] false sampleGesture 2 5 .raises
      (by decide) (by norm_num),
   execute_always_marks_cooldown [] true sampleGesture 2 5 (.ok true)
      (by decide) (by norm_num)⟩

/-- C5: in dry-run mode, an eligible gesture with an action id yields
`true` and the backend's `trigger` is never invoked. -/
theorem execute_dry_run (m : List (String × ℚ)) (gesture : RecognizedGesture)
    (cd now : ℚ) (backend : BackendOutcome)
    (hact : optStrTruthy gesture.action = true)
    (hcd : ¬ now - (m.lookup gesture.name).getD 0 < cd) :
    (execute m true gesture cd now backend).result = true ∧
    (execute m true gesture cd now backend).backendInvoked = false := by
  constructor <;> simp [execute, hact, hcd]

/-- Witness for C5. -/
theorem execute_dry_run_witness :
    (execute [] true sampleGesture 2 5 .raises).result = true ∧
    (execute [] true sampleGesture 2 5 .raises).backendInvoked = false :=
  execute_dry_run [] sampleGesture 2 5 .raises (by decide) (by norm_num)

/-- C6: a gesture without an action id is a no-op returning false; a
gesture whose cooldown has not elapsed returns false with no side
effects — backend untouched, timestamp map unchanged. -/
theorem execute_no_action_or_cooldown_noop (m : List (String × ℚ))
    (dryRun : Bool) (gesture : RecognizedGesture) (cd now : ℚ)
    (backend : BackendOutcome) :
    (gesture.action = none →
      execute m dryRun gesture cd now backend =
        { result := false, lastActionTime := m, backendInvoked := false }) ∧
    (now - (m.lookup gesture.name).getD 0 < cd →
      execute m dryRun gesture cd now backend =
        { result := false, lastActionTime := m, backendInvoked := false }) := by
  constructor
  · intro h
    simp [execute, optStrTruthy, h]
  · intro h
    unfold execute
    by_cases hact : optStrTruthy gesture.action = true <;> simp [hact, h]

/-- Witness for C6: both the no-action path and the active-cooldown path. -/
theorem execute_no_action_or_cooldown_noop_witness :
    (execute [] false { sampleGesture with action := none } 2 5 (.ok true) =
      { result := false, lastActionTime := [], backendInvoked := false }) ∧
    (execute [("thumbs_up", (4 : ℚ))] false sampleGesture 2 5 (.ok true) =
      { result := false, lastActionTime := [("thumbs_up", (4 : ℚ))],
        backendInvoked := false }) :=
  ⟨(execute_no_action_or_cooldown_noop [] false
      { sampleGesture with action := none } 2 5 (.ok true)).1 rfl,
   (execute_no_action_or_cooldown_noop [("thumbs_up", (4 : ℚ))] false
      sampleGesture 2 5 (.ok true)).2 (by norm_num [List.lookup, sampleGesture])⟩

/-- C7: if the backend call raises, `execute` returns false — an
exception never propagates (in this total embedding, `execute` yields a
result on every input, and on every path that actually invokes the
backend a raising backend produces `false`). -/
theorem execute_catches_backend_exception (m : List (String × ℚ))
    (dryRun : Bool) (gesture : RecognizedGesture) (cd now : ℚ) :
    (execute m dryRun gesture cd now .raises).backendInvoked = true →
    (execute m dryRun gesture cd now .raises).result = false := by
  unfold execute
  split_ifs <;> simp

/-- Witness for C7: a run that reaches the backend and sees it raise. -/
theorem execute_catches_backend_exception_witness :
    (execute [] false sampleGesture 2 5 .raises).result = false :=
  execute_catches_backend_exception [] false sampleGesture 2 5
    (by
      have h : ("lights_on" : String) ≠ "" := by decide
      norm_num [execute, sampleGesture, optStrTruthy, h])

/-- A concrete detection result with exactly one hand. -/
def sampleDetection : DetectionResult := { hands := [sampleHand] }

/-- C8: `recognize` yields exactly one `RecognizedGesture` per input hand,
in input order, the i-th derived from the i-th hand: its name and
confidence are `classify`'s result for that hand and its handedness is
that hand's handedness. -/
theorem recognize_one_per_hand (config : List (String × GestureConfig))
    (detection : DetectionResult) :
    (recognize config detection).length = detection.hands.length ∧
    ∀ i, i < detection.hands.length →
      ∀ (dh : HandLandmarks) (dg : RecognizedGesture),
        ((recognize config detection).getD i dg).name =
          (classify (detection.hands.getD i dh).landmarks
            (detection.hands.getD i dh).handedness).1 ∧
        ((recognize config detection).getD i dg).confidence =
          (classify (detection.hands.getD i dh).landmarks
            (detection.hands.getD i dh).handedness).2 ∧
        ((recognize config detection).getD i dg).handedness =
          (detection.hands.getD i dh).handedness := by
  constructor
  · simp [recognize]
  · intro i hi dh dg
    have hlen : i < (recognize config detection).length := by
      simpa [recognize] using hi
    rw [List.getD_eq_getElem _ _ hlen, List.getD_eq_getElem _ _ hi]
    simp [recognize, List.getElem_map]

/-- Witness for C8 on a one-hand detection result. -/
theorem recognize_one_per_hand_witness :
    (recognize [] sampleDetection).length = sampleDetection.hands.length ∧
    ((recognize [] sampleDetection).getD 0 sampleGesture).name =
      (classify (sampleDetection.hands.getD 0 sampleHand).landmarks
        (sampleDetection.hands.getD 0 sampleHand).handedness).1 ∧
    ((recognize [] sampleDetection).getD 0 sampleGesture).handedness =
      (sampleDetection.hands.getD 0 sampleHand).handedness := by
  obtain ⟨h1, h2⟩ := recognize_one_per_hand [] sampleDetection
  obtain ⟨ha, -, hc⟩ :=
    h2 0 (by norm_num [sampleDetection]) sampleHand sampleGesture
  exact ⟨h1, ha, hc⟩

/-- Behaviour of the command phase of `GoogleSDMBackend.trigger` for a
mapped action, starting from token `tok` after `r` token POSTs: one
command POST with `tok`; on 200 success; on a non-401 failure or a raised
exception no retry; on 401 exactly one further refresh attempt, with a
single retried POST (whose outcome is reported) only when that refresh
succeeds, and no retry — with the stale token kept — when it fails. -/
theorem sdm_command_phase_spec (action tok : String) (r : Nat)
    (refreshO : Nat → TokenHttpResult) (cmdO : Nat → HttpResult)
    (hmap : (action_to_command action).isSome = true) :
    (cmdO 0 = .exn → sdm_command_phase action tok r refreshO cmdO =
      { result := false, accessToken := tok, refreshCalls := r,
        commandPosts := [tok] }) ∧
    (∀ s, cmdO 0 = .resp s → s ≠ 401 →
      sdm_command_phase action tok r refreshO cmdO =
        { result := decide (s = 200), accessToken := tok, refreshCalls := r,
          commandPosts := [tok] }) ∧
    (cmdO 0 = .resp 401 →
      (∀ t', refreshO r = .resp 200 t' →
        sdm_command_phase action tok r refreshO cmdO =
          { result := cmdSuccess (cmdO 1), accessToken := t',
            refreshCalls := r + 1, commandPosts := [tok, t'] }) ∧
      ((refresh_access_token tok (refreshO r)).1 = false →
        sdm_command_phase action tok r refreshO cmdO =
          { result := false, accessToken := tok, refreshCalls := r + 1,
            commandPosts := [tok] })) := by
  obtain ⟨c, hc⟩ := Option.isSome_iff_exists.mp hmap
  refine ⟨?_, ?_, ?_⟩
  · intro h
    simp [sdm_command_phase, hc, h]
  · intro s h hs
    by_cases h200 : s = 200 <;> simp [sdm_command_phase, hc, h, hs, h200]
  · intro h
    constructor
    · intro t' ht'
      rcases h1 : cmdO 1 with s' | _ <;>
        simp [sdm_command_phase, hc, h, ht', refresh_access_token, h1, cmdSuccess]
    · intro hrf
      rcases hr : refresh_access_token tok (refreshO r) with ⟨b, t⟩
      rw [hr] at hrf
      simp only at hrf
      subst hrf
      simp [sdm_command_phase, hc, h, hr]

/-- C4 counterexample: cached token `"tok"`, the command POST answers 401
and the subsequent token refresh raises.  The call returns false after a
single command POST — no retried call happens and no retried outcome is
reported — and the cached access token remains `"tok"`: the backend does
not transition back to the no-token state as the claim asserts. -/
theorem sdm_trigger_401_failed_refresh_keeps_token :
    sdm_trigger "tok" "ac_on" (fun _ => TokenHttpResult.exn)
        (fun _ => HttpResult.resp 401) =
      { result := false, accessToken := "tok", refreshCalls := 1,
        commandPosts := ["tok"] } ∧
    ("tok" : String) ≠ "" ∧
    (sdm_trigger "tok" "ac_on" (fun _ => TokenHttpResult.exn)
        (fun _ => HttpResult.resp 401)).commandPosts.length ≠ 2 := by
  refine ⟨by decide, by decide, by decide⟩

/-- C4 (amended): one `trigger` call on a mapped action follows the token
discipline: with no cached token it performs one refresh and, on refresh
failure, returns false without issuing the command; with a token it
issues the command once; exactly on a 401 response it performs one
further refresh attempt — if the refresh succeeds it replaces the token
and retries the command exactly once, reporting the retried call's
outcome; if the refresh fails it returns false without retrying and
keeps the previously cached token.  No other status code causes a retry
and no call makes more than one extra command attempt. -/
theorem sdm_trigger_token_machine (tok0 action : String)
    (refreshO : Nat → TokenHttpResult) (cmdO : Nat → HttpResult)
    (hmap : (action_to_command action).isSome = true) :
    (tok0 = "" → (refresh_access_token "" (refreshO 0)).1 = false →
      sdm_trigger tok0 action refreshO cmdO =
        { result := false, accessToken := tok0, refreshCalls := 1,
          commandPosts := [] }) ∧
    (∀ tok r,
      ((tok0 ≠ "" ∧ tok = tok0 ∧ r = 0) ∨
        (tok0 = "" ∧ refreshO 0 = .resp 200 tok ∧ r = 1)) →
      (cmdO 0 = .exn → sdm_trigger tok0 action refreshO cmdO =
        { result := false, accessToken := tok, refreshCalls := r,
          commandPosts := [tok] }) ∧
      (∀ s, cmdO 0 = .resp s → s ≠ 401 →
        sdm_trigger tok0 action refreshO cmdO =
          { result := decide (s = 200), accessToken := tok, refreshCalls := r,
            commandPosts := [tok] }) ∧
      (cmdO 0 = .resp 401 →
        (∀ t', refreshO r = .resp 200 t' →
          sdm_trigger tok0 action refreshO cmdO =
            { result := cmdSuccess (cmdO 1), accessToken := t',
              refreshCalls := r + 1, commandPosts := [tok, t'] }) ∧
        ((refresh_access_token tok (refreshO r)).1 = false →
          sdm_trigger tok0 action refreshO cmdO =
            { result := false, accessToken := tok, refreshCalls := r + 1,
              commandPosts := [tok] }))) := by
  constructor
  · intro h0 hrf
    subst h0
    rcases hr : refresh_access_token "" (refreshO 0) with ⟨b, t⟩
    rw [hr] at hrf
    simp only at hrf
    subst hrf
    simp [sdm_trigger, sdm_ensure_token, hr]
  · intro tok r hentry
    have hinit : sdm_ensure_token tok0 refreshO = some (tok, r) := by
      rcases hentry with ⟨h1, h2, h3⟩ | ⟨h1, h2, h3⟩
      · subst h2; subst h3; simp [sdm_ensure_token, h1]
      · subst h1; subst h3; simp [sdm_ensure_token, h2, refresh_access_token]
    have h := sdm_command_phase_spec action tok r refreshO cmdO hmap
    simpa [sdm_trigger, hinit] using h

/-- Witness for C4 (amended): expired token `"t0"`, first command POST
answers 401, refresh succeeds with `"t1"`, retried POST answers 200. -/
theorem sdm_trigger_token_machine_witness :
    sdm_trigger "t0" "ac_on" (fun _ => TokenHttpResult.resp 200 "t1")
        (fun n => if n = 0 then HttpResult.resp 401 else HttpResult.resp 200) =
      { result := true, accessToken := "t1", refreshCalls := 1,
        commandPosts := ["t0", "t1"] } := by
  have h := sdm_trigger_token_machine "t0" "ac_on"
      (fun _ => TokenHttpResult.resp 200 "t1")
      (fun n => if n = 0 then HttpResult.resp 401 else HttpResult.resp 200)
      (by decide)
  simpa [cmdSuccess] using
    ((h.2 "t0" 0 (Or.inl ⟨by decide, rfl, rfl⟩)).2.2 rfl).1 "t1" rfl

/-- C10 counterexample: for the unmapped action `"lights_on"` the
cloud-thermostat backend with no cached token still issues a request —
one POST to the token endpoint — before returning false, so it does not
return false "without issuing a request". -/
theorem sdm_unmapped_still_issues_refresh_request :
    action_to_command "lights_on" = none ∧
    (sdm_trigger "" "lights_on" (fun _ => TokenHttpResult.resp 200 "tok")
        (fun _ => HttpResult.resp 200)).result = false ∧
    (sdm_trigger "" "lights_on" (fun _ => TokenHttpResult.resp 200 "tok")
        (fun _ => HttpResult.resp 200)).refreshCalls = 1 := by
  refine ⟨by decide, by decide, by decide⟩

/-- C10 (amended): the webhook backend with a non-empty key uses an
unmapped action id verbatim as the event name and returns true iff the
response status is 200; the home-automation backend returns false for an
unmapped action without issuing any request; the cloud-thermostat
backend returns false for an unmapped action without issuing the command
request (though it may first POST to the token endpoint when no access
token is cached). -/
theorem unmapped_action_fallbacks (action apiKey : String)
    (hkey : apiKey ≠ "")
    (hifttt : ACTION_EVENTS.lookup action = none)
    (hha : ACTION_MAP.lookup action = none)
    (hsdm : action_to_command action = none) :
    (∀ s, ifttt_trigger apiKey action (.resp s) =
      { result := decide (s = 200), posts := [action] }) ∧
    (∀ (token : String) (env : String → String) (http : HttpResult),
      ha_trigger token env action http = { result := false, posts := [] }) ∧
    (∀ (tok0 : String) (refreshO : Nat → TokenHttpResult)
        (cmdO : Nat → HttpResult),
      (sdm_trigger tok0 action refreshO cmdO).result = false ∧
      (sdm_trigger tok0 action refreshO cmdO).commandPosts = []) := by
  refine ⟨?_, ?_, ?_⟩
  · intro s
    simp [ifttt_trigger, hkey, hifttt]
  · intro token env http
    by_cases ht : token = ""
    · simp [ha_trigger, ht]
    · simp [ha_trigger, ht, hha]
  · intro tok0 refreshO cmdO
    rcases hinit : sdm_ensure_token tok0 refreshO with _ | ⟨tok, r⟩
    · simp [sdm_trigger, hinit]
    · constructor <;> simp [sdm_trigger, hinit, sdm_command_phase, hsdm]

/-- Witness for C10 (amended) at the unmapped action `"lights_dim"`. -/
theorem unmapped_action_fallbacks_witness :
    ifttt_trigger "key1" "lights_dim" (.resp 200) =
      { result := decide ((200 : Nat) = 200), posts := ["lights_dim"] } ∧
    ha_trigger "tok" (fun _ => "entity") "lights_dim" (.resp 200) =
      { result := false, posts := [] } ∧
    (sdm_trigger "t" "lights_dim" (fun _ => TokenHttpResult.exn)
        (fun _ => HttpResult.resp 200)).result = false := by
  have h := unmapped_action_fallbacks "lights_dim" "key1"
      (by decide) (by decide) (by decide) (by decide)
  exact ⟨h.1 200, h.2.1 "tok" (fun _ => "entity") (.resp 200),
    (h.2.2 "t" (fun _ => TokenHttpResult.exn) (fun _ => HttpResult.resp 200)).1⟩

end HandGesture
